import Mathlib

/-!
Shallow embedding of the Project-Refill Django admin registrations
(`accounts/admin.py`, `depots/admin.py`, `equipment/admin.py`,
`customers/admin.py`, `inventory/admin.py`, `transactions/admin.py`,
`invoices/admin.py`, `distribution/admin.py`, `audit/admin.py`).

Each admin class is embedded as a `ModelAdmin` record carrying exactly the
attributes declared in the source.  The audit-log permission methods are
embedded as Lean functions.  The host framework (Django's admin machinery)
lives outside this repository, so the parts of its behaviour the spec relies
on — the fallback to default permission checks, the handling of read-only
fields on form save, and the default `UserAdmin.fieldsets` — are modelled
abstractly, parametrised over the framework-supplied data.
-/

/-- An incoming admin HTTP request; the source never inspects it, so any
carrier with a notion of caller identity suffices. -/
structure Request where
  userName : String
  isSuperuser : Bool
  deriving DecidableEq, Repr

/-- A model instance passed to an object-level permission check. -/
structure AdminObj where
  pk : Nat
  deriving DecidableEq, Repr

/-- A model field as returned by Django's `Model._meta.get_fields()`; the
admin file only reads its `name`. -/
structure ModelField where
  name : String
  deriving DecidableEq, Repr

/-- One entry of an admin `fieldsets` declaration: an optional section title
and the field names in that section. -/
structure Fieldset where
  title : Option String
  fields : List String
  deriving DecidableEq, Repr

/-- An `admin.TabularInline` declaration: the child model and the number of
extra blank forms. -/
structure TabularInline where
  model : String
  extra : Nat
  deriving DecidableEq, Repr

/-- A registered `admin.ModelAdmin` subclass: the model it is registered
for, its declared configuration attributes, and — when the class declares
them — its overrides of the three framework permission checks.  An
attribute the source leaves undeclared is the empty list / `none`. -/
structure ModelAdmin where
  model : String
  list_display : List String
  list_filter : List String
  search_fields : List String
  readonly_fields : List String
  inlines : List TabularInline
  has_add_override : Option (Request → Bool)
  has_change_override : Option (Request → Option AdminObj → Bool)
  has_delete_override : Option (Request → Option AdminObj → Bool)

/-- Source `accounts/admin.py`: the extra fieldset section
`('LPG System Info', ('employee_id', 'role', 'depot'))`. -/
def lpgSystemInfoFieldset : Fieldset :=
  { title := some "LPG System Info"
    fields := ["employee_id", "role", "depot"] }

/-- Source `accounts/admin.py`: `CustomUserAdmin.fieldsets = UserAdmin.fieldsets +
(('LPG System Info', ...),)`.  `UserAdmin.fieldsets` is framework-supplied,
hence a parameter. -/
def customUserFieldsets (defaultFieldsets : List Fieldset) : List Fieldset :=
  defaultFieldsets ++ [lpgSystemInfoFieldset]

/-- Source `accounts/admin.py`: `CustomUserAdmin`. -/
def CustomUserAdmin : ModelAdmin :=
  { model := "User"
    list_display := ["username", "employee_id", "role", "depot", "is_staff"]
    list_filter := ["role", "depot"]
    search_fields := []
    readonly_fields := []
    inlines := []
    has_add_override := none
    has_change_override := none
    has_delete_override := none }

/-- Source `depots/admin.py`: `DepotAdmin`. -/
def DepotAdmin : ModelAdmin :=
  { model := "Depot"
    list_display := ["code", "name"]
    list_filter := []
    search_fields := ["name", "code"]
    readonly_fields := []
    inlines := []
    has_add_override := none
    has_change_override := none
    has_delete_override := none }

/-- Source `equipment/admin.py`: `EquipmentAdmin`. -/
def EquipmentAdmin : ModelAdmin :=
  { model := "Equipment"
    list_display := ["sku", "name", "equipment_type", "is_active"]
    list_filter := ["equipment_type", "is_active"]
    search_fields := []
    readonly_fields := []
    inlines := []
    has_add_override := none
    has_change_override := none
    has_delete_override := none }

/-- Source `customers/admin.py`: `CustomerAdmin`. -/
def CustomerAdmin : ModelAdmin :=
  { model := "Customer"
    list_display := ["name", "email", "payment_type", "is_meter_installed"]
    list_filter := []
    search_fields := ["name", "email"]
    readonly_fields := []
    inlines := []
    has_add_override := none
    has_change_override := none
    has_delete_override := none }

/-- Source `inventory/admin.py`: `InventoryAdmin`, registered for
`CustomerSiteInventory`. -/
def InventoryAdmin : ModelAdmin :=
  { model := "CustomerSiteInventory"
    list_display := ["customer", "equipment", "quantity"]
    list_filter := ["equipment"]
    search_fields := ["customer__name"]
    readonly_fields := []
    inlines := []
    has_add_override := none
    has_change_override := none
    has_delete_override := none }

/-- Source `transactions/admin.py`: `TransactionAdmin`. -/
def TransactionAdmin : ModelAdmin :=
  { model := "Transaction"
    list_display := ["transaction_number", "customer", "total_amount", "created_at"]
    list_filter := []
    search_fields := []
    readonly_fields := ["transaction_number", "created_at"]
    inlines := []
    has_add_override := none
    has_change_override := none
    has_delete_override := none }

/-- Source `invoices/admin.py`: `InvoiceAdmin`. -/
def InvoiceAdmin : ModelAdmin :=
  { model := "Invoice"
    list_display := ["invoice_number", "status", "generated_at", "emailed_at"]
    list_filter := ["status"]
    search_fields := []
    readonly_fields := ["invoice_number", "pdf_path", "generated_at"]
    inlines := []
    has_add_override := none
    has_change_override := none
    has_delete_override := none }

/-- Source `distribution/admin.py`: `DistributionItemInline`. -/
def DistributionItemInline : TabularInline :=
  { model := "DistributionItem", extra := 1 }

/-- Source `distribution/admin.py`: `DistributionAdmin`. -/
def DistributionAdmin : ModelAdmin :=
  { model := "Distribution"
    list_display := ["distribution_number", "depot", "user", "confirmed_at"]
    list_filter := []
    search_fields := []
    readonly_fields := ["distribution_number", "created_at"]
    inlines := [DistributionItemInline]
    has_add_override := none
    has_change_override := none
    has_delete_override := none }

/-- Source `audit/admin.py`: `def has_add_permission(self, request): return False`. -/
def has_add_permission (_request : Request) : Bool := false

/-- Source `audit/admin.py`: `def has_change_permission(self, request, obj=None):
return False`. -/
def has_change_permission (_request : Request) (_obj : Option AdminObj) : Bool := false

/-- Source `audit/admin.py`: `def has_delete_permission(self, request, obj=None):
return False`. -/
def has_delete_permission (_request : Request) (_obj : Option AdminObj) : Bool := false

/-- Source `audit/admin.py`: `readonly_fields = [f.name for f in
AuditLog._meta.get_fields()]`.  The `AuditLog` model lives outside this
fragment, so its field list is a parameter. -/
def auditLogReadonlyFields (metaFields : List ModelField) : List String :=
  metaFields.map ModelField.name

/-- Source `audit/admin.py`: `AuditLogAdmin`, parametrised by the `AuditLog`
model's `_meta.get_fields()` result. -/
def AuditLogAdmin (metaFields : List ModelField) : ModelAdmin :=
  { model := "AuditLog"
    list_display := ["created_at", "user", "action", "entity_type", "entity_id"]
    list_filter := ["action", "entity_type"]
    search_fields := []
    readonly_fields := auditLogReadonlyFields metaFields
    inlines := []
    has_add_override := some has_add_permission
    has_change_override := some has_change_permission
    has_delete_override := some has_delete_permission }

/-- Every admin class the fragment registers with `@admin.register`. -/
def registeredAdmins (metaFields : List ModelField) : List ModelAdmin :=
  [CustomUserAdmin, DepotAdmin, EquipmentAdmin, CustomerAdmin, InventoryAdmin,
   TransactionAdmin, InvoiceAdmin, DistributionAdmin, AuditLogAdmin metaFields]

/-- Whether an admin class declares any override of the three mutation
permission checks. -/
def overridesMutation (a : ModelAdmin) : Bool :=
  a.has_add_override.isSome || a.has_change_override.isSome ||
    a.has_delete_override.isSome

/-- Modelled from the spec: the host framework (external to this fragment)
consults an admin class's `has_add_permission` override when one is
declared and otherwise runs its own default check. -/
def effectiveAddPermission (a : ModelAdmin) (frameworkDefault : Request → Bool)
    (r : Request) : Bool :=
  (a.has_add_override.getD frameworkDefault) r

/-- Modelled from the spec: framework dispatch for `has_change_permission`,
falling back to the default check when no override is declared. -/
def effectiveChangePermission (a : ModelAdmin)
    (frameworkDefault : Request → Option AdminObj → Bool)
    (r : Request) (o : Option AdminObj) : Bool :=
  (a.has_change_override.getD frameworkDefault) r o

/-- Modelled from the spec: framework dispatch for `has_delete_permission`,
falling back to the default check when no override is declared. -/
def effectiveDeletePermission (a : ModelAdmin)
    (frameworkDefault : Request → Option AdminObj → Bool)
    (r : Request) (o : Option AdminObj) : Bool :=
  (a.has_delete_override.getD frameworkDefault) r o

/-- Modelled from the spec: the host framework's admin-form save.  A record
is a map from field name to value; the form stores the submitted value for
every editable field but leaves every field declared in the admin's
`readonly_fields` unchanged even when a new value for it is submitted
directly. -/
def saveAdminForm (a : ModelAdmin) (stored submitted : String → String) :
    String → String :=
  fun fld => if fld ∈ a.readonly_fields then stored fld else submitted fld

/-- An admin class that declares none of the three permission overrides, so
the framework's default write-permission checks apply to it unchanged. -/
def keepsDefaultPermissions (a : ModelAdmin) : Prop :=
  a.has_add_override = none ∧ a.has_change_override = none ∧
  a.has_delete_override = none ∧
  ∀ (dAdd : Request → Bool) (dObj : Request → Option AdminObj → Bool)
    (r : Request) (o : Option AdminObj),
    effectiveAddPermission a dAdd r = dAdd r ∧
    effectiveChangePermission a dObj r o = dObj r o ∧
    effectiveDeletePermission a dObj r o = dObj r o

/-- C1: every attempt to add, modify, or delete an audit record through the
admin interface is rejected regardless of caller identity: for every
request and every object (including none), the three `AuditLogAdmin`
permission checks return `false`, and so do the effective permissions the
framework computes from them, whatever its defaults. -/
theorem auditLog_mutation_always_denied :
    ∀ (r : Request) (o : Option AdminObj),
      has_add_permission r = false ∧
      has_change_permission r o = false ∧
      has_delete_permission r o = false ∧
      ∀ (fs : List ModelField) (dAdd : Request → Bool)
        (dObj : Request → Option AdminObj → Bool),
        effectiveAddPermission (AuditLogAdmin fs) dAdd r = false ∧
        effectiveChangePermission (AuditLogAdmin fs) dObj r o = false ∧
        effectiveDeletePermission (AuditLogAdmin fs) dObj r o = false := by
  intro r o
  exact ⟨rfl, rfl, rfl, fun _ _ _ => ⟨rfl, rfl, rfl⟩⟩

/-- C2: the read-only declarations are exactly the listed fields, and on
every admin-form save the stored values of those fields are unchanged even
when a new value for them is submitted directly. -/
theorem readonly_declarations_exact_and_enforced :
    TransactionAdmin.readonly_fields = ["transaction_number", "created_at"] ∧
    InvoiceAdmin.readonly_fields = ["invoice_number", "pdf_path", "generated_at"] ∧
    DistributionAdmin.readonly_fields = ["distribution_number", "created_at"] ∧
    (∀ (stored submitted : String → String) (fld : String),
      fld ∈ TransactionAdmin.readonly_fields →
      saveAdminForm TransactionAdmin stored submitted fld = stored fld) ∧
    (∀ (stored submitted : String → String) (fld : String),
      fld ∈ InvoiceAdmin.readonly_fields →
      saveAdminForm InvoiceAdmin stored submitted fld = stored fld) ∧
    (∀ (stored submitted : String → String) (fld : String),
      fld ∈ DistributionAdmin.readonly_fields →
      saveAdminForm DistributionAdmin stored submitted fld = stored fld) := by
  refine ⟨rfl, rfl, rfl, ?_, ?_, ?_⟩ <;>
    intro stored submitted fld h <;> simp [saveAdminForm, h]

/-- C2 witness: the theorem applied at `transaction_number` on the
transaction admin with concrete stored and submitted records. -/
theorem readonly_declarations_exact_and_enforced_witness :
    "transaction_number" ∈ TransactionAdmin.readonly_fields ∧
    saveAdminForm TransactionAdmin (fun _ => "old") (fun _ => "new")
      "transaction_number" = "old" := by
  have hmem : "transaction_number" ∈ TransactionAdmin.readonly_fields := by
    simp [TransactionAdmin]
  exact ⟨hmem, readonly_declarations_exact_and_enforced.2.2.2.1
    (fun _ => "old") (fun _ => "new") "transaction_number" hmem⟩

/-- C3: of the nine registered admin classes, exactly the audit-log admin
overrides the mutation permission checks; each of the other eight declares
none of the three overrides and therefore keeps the framework's default
write permissions. -/
theorem only_auditLog_overrides_mutation :
    ∀ (fs : List ModelField),
      (registeredAdmins fs).map (fun a => (a.model, overridesMutation a)) =
        [("User", false), ("Depot", false), ("Equipment", false),
         ("Customer", false), ("CustomerSiteInventory", false),
         ("Transaction", false), ("Invoice", false), ("Distribution", false),
         ("AuditLog", true)] ∧
      keepsDefaultPermissions CustomUserAdmin ∧
      keepsDefaultPermissions DepotAdmin ∧
      keepsDefaultPermissions EquipmentAdmin ∧
      keepsDefaultPermissions CustomerAdmin ∧
      keepsDefaultPermissions InventoryAdmin ∧
      keepsDefaultPermissions TransactionAdmin ∧
      keepsDefaultPermissions InvoiceAdmin ∧
      keepsDefaultPermissions DistributionAdmin := by
  intro fs
  refine ⟨rfl, ?_, ?_, ?_, ?_, ?_, ?_, ?_, ?_⟩ <;>
    exact ⟨rfl, rfl, rfl, fun _ _ _ _ => ⟨rfl, rfl, rfl⟩⟩

/-- C4: the Depot and Equipment admin list, filter, and search
configuration is exactly as declared, with no other fields configured. -/
theorem depot_equipment_list_config :
    DepotAdmin.list_display = ["code", "name"] ∧
    DepotAdmin.search_fields = ["name", "code"] ∧
    DepotAdmin.list_filter = [] ∧
    EquipmentAdmin.list_display = ["sku", "name", "equipment_type", "is_active"] ∧
    EquipmentAdmin.list_filter = ["equipment_type", "is_active"] ∧
    EquipmentAdmin.search_fields = [] :=
  ⟨rfl, rfl, rfl, rfl, rfl, rfl⟩

/-- C5: the Customer and CustomerSiteInventory admin list, filter, and
search configuration is exactly as declared, with no other fields
configured. -/
theorem customer_inventory_list_config :
    CustomerAdmin.list_display = ["name", "email", "payment_type", "is_meter_installed"] ∧
    CustomerAdmin.search_fields = ["name", "email"] ∧
    CustomerAdmin.list_filter = [] ∧
    InventoryAdmin.list_display = ["customer", "equipment", "quantity"] ∧
    InventoryAdmin.list_filter = ["equipment"] ∧
    InventoryAdmin.search_fields = ["customer__name"] :=
  ⟨rfl, rfl, rfl, rfl, rfl, rfl⟩

/-- C6: the User admin list configuration is exactly as declared, with no
other list-display or filter fields configured. -/
theorem customUser_list_config :
    CustomUserAdmin.list_display = ["username", "employee_id", "role", "depot", "is_staff"] ∧
    CustomUserAdmin.list_filter = ["role", "depot"] ∧
    CustomUserAdmin.search_fields = [] :=
  ⟨rfl, rfl, rfl⟩

/-- C7: the Transaction, Invoice, and Distribution admin list configuration
is exactly as declared, with no other list-display or filter fields
configured. -/
theorem transaction_invoice_distribution_list_config :
    TransactionAdmin.list_display =
        ["transaction_number", "customer", "total_amount", "created_at"] ∧
    TransactionAdmin.list_filter = [] ∧
    InvoiceAdmin.list_display = ["invoice_number", "status", "generated_at", "emailed_at"] ∧
    InvoiceAdmin.list_filter = ["status"] ∧
    DistributionAdmin.list_display = ["distribution_number", "depot", "user", "confirmed_at"] ∧
    DistributionAdmin.list_filter = [] :=
  ⟨rfl, rfl, rfl, rfl, rfl, rfl⟩

/-- C8: the audit admin's `readonly_fields` is the comprehension mapping
every field of the `AuditLog` model to its name, so the name of every model
field — not only a selected subset — appears among the read-only fields. -/
theorem auditLog_readonly_covers_every_field :
    ∀ (fs : List ModelField),
      (AuditLogAdmin fs).readonly_fields = fs.map ModelField.name ∧
      ∀ f ∈ fs, f.name ∈ (AuditLogAdmin fs).readonly_fields := by
  intro fs
  refine ⟨rfl, fun f hf => ?_⟩
  simpa [AuditLogAdmin, auditLogReadonlyFields] using
    List.mem_map_of_mem ModelField.name hf

/-- C8 witness: the theorem applied to a one-field model. -/
theorem auditLog_readonly_covers_every_field_witness :
    (⟨"created_at"⟩ : ModelField) ∈ [(⟨"created_at"⟩ : ModelField)] ∧
    "created_at" ∈ (AuditLogAdmin [⟨"created_at"⟩]).readonly_fields := by
  refine ⟨List.mem_cons_self _ _, ?_⟩
  exact (auditLog_readonly_covers_every_field [⟨"created_at"⟩]).2
    ⟨"created_at"⟩ (List.mem_cons_self _ _)

/-- C9: the three audit-log permission checks are insensitive to their
inputs: any two requests and any two objects (each possibly absent) yield
the same decision, so the denial leaks nothing about caller or record. -/
theorem auditLog_permissions_input_insensitive :
    ∀ (r1 r2 : Request) (o1 o2 : Option AdminObj),
      has_add_permission r1 = has_add_permission r2 ∧
      has_change_permission r1 o1 = has_change_permission r2 o2 ∧
      has_delete_permission r1 o1 = has_delete_permission r2 o2 :=
  fun _ _ _ _ => ⟨rfl, rfl, rfl⟩

/-- C10: whatever the framework's default `UserAdmin.fieldsets` is, the
custom user admin's fieldsets are exactly those defaults, preserved
unchanged and in order, with exactly one section appended — titled
`LPG System Info` and containing exactly `employee_id`, `role`, `depot`. -/
theorem customUser_fieldsets_extend_defaults :
    ∀ (defaultFieldsets : List Fieldset),
      customUserFieldsets defaultFieldsets =
        defaultFieldsets ++
          [{ title := some "LPG System Info",
             fields := ["employee_id", "role", "depot"] }] ∧
      (customUserFieldsets defaultFieldsets).take defaultFieldsets.length =
        defaultFieldsets ∧
      (customUserFieldsets defaultFieldsets).drop defaultFieldsets.length =
        [lpgSystemInfoFieldset] := by
  intro d
  refine ⟨rfl, ?_, ?_⟩
  · simp [customUserFieldsets]
  · simp [customUserFieldsets]
